import Mathlib

/-!
Verification of the IEC 60870-5-104 link layer implementation (crate iec104).

This file gives a shallow embedding of the APDU / ASDU codec (src/apdu.rs,
src/asdu.rs, src/types.rs, src/types_id.rs, src/cot.rs, src/types/time.rs)
and of the session engine of src/link/receive_handler.rs together with the
client-side fast path of src/client.rs, and proves or refutes the frozen
claims about them.

Modelling conventions:
- Rust u8/u16/u32/usize values are Nat with explicit masking or modulus
  where the code can overflow or wrap.
- Fallible Rust functions returning Result are embedded as Except or as
  RustResult, which adds an explicit panicked outcome for the arithmetic
  operations that panic in Rust (remainder or division by zero, and
  out-of-bounds slicing).
- The TypeId and Cot enums are in bijection with their u8 discriminants
  (From and as-casts in the source), so they are modelled by the raw Nat
  code.
- Information-object payloads are kept as their raw byte chunks; the
  per-type value codecs of src/types/ are not consulted by any claim
  settled here except the Cp56Time2a codec, which is embedded separately.
- Timestamps (std Instant values stored next to queue entries) and timer
  deadlines are not representable; timer actions are recorded as boolean
  effects, and queue entries keep only their u16 sequence value.
-/

deriving instance DecidableEq for Except

/-- Result of a Rust function that can also panic. -/
inductive RustResult (ε α : Type) where
  | ok (a : α)
  | err (e : ε)
  | panicked
deriving DecidableEq

def RustResult.map {ε α β : Type} (f : α → β) : RustResult ε α → RustResult ε β
  | .ok a => .ok (f a)
  | .err e => .err e
  | .panicked => .panicked

/-- Wrapping usize subtraction (release-build semantics of the Rust
operator; a debug build would panic when the result underflows). -/
def usizeSub (a b : Nat) : Nat :=
  (a + 18446744073709551616 - b) % 18446744073709551616

/-- TypeId::size from src/types_id.rs: fixed byte size of one information
object payload for each type code (the catch-all arm yields 0). -/
def typeIdSize (t : Nat) : Nat :=
  match t with
  | 1 => 1 | 2 => 4 | 3 => 1 | 4 => 4 | 5 => 2 | 6 => 5 | 7 => 5
  | 9 => 3 | 10 => 6 | 11 => 3 | 12 => 6 | 13 => 5 | 14 => 8 | 15 => 5
  | 17 => 6 | 18 => 7 | 19 => 7 | 20 => 5 | 21 => 2
  | 30 => 8 | 31 => 8 | 32 => 9 | 33 => 12 | 34 => 10 | 35 => 10
  | 36 => 12 | 37 => 12 | 38 => 10 | 39 => 11 | 40 => 11
  | 45 => 1 | 46 => 1 | 47 => 1 | 48 => 3 | 49 => 3 | 50 => 5 | 51 => 4
  | 58 => 8 | 59 => 8 | 60 => 8 | 61 => 10 | 62 => 10 | 63 => 12 | 64 => 11
  | 70 => 1
  | 100 => 1 | 101 => 1 | 102 => 0 | 103 => 7 | 104 => 2 | 105 => 1
  | 106 => 2 | 107 => 9
  | 110 => 3 | 111 => 3 | 112 => 5 | 113 => 1
  | 120 => 6 | 121 => 6 | 122 => 6 | 123 => 6 | 124 => 6 | 125 => 6 | 126 => 6
  | _ => 0

/-- Cot::try_from of src/cot.rs: every value 0..=63 maps to the enum
variant with the same discriminant, larger values fail with InvalidCot. -/
def cotTryFrom (v : Nat) : Option Nat :=
  if v ≤ 63 then some v else none

/-- Errors of the value codec (ParseError in src/types.rs). -/
inductive IOParseError where
  | parseTimeTag
  | invalidType
  | notImplemented
  | notEnoughBytes
  | sizedSlice
deriving DecidableEq

/-- GenericObject of src/types.rs; the typed payload is kept as its raw
byte chunk. -/
structure GenericObject where
  address : Nat
  objectBytes : List Nat
deriving DecidableEq

/-- The InformationObjects enum of src/types.rs: the variant tag is the
type code, the payload the vector of decoded objects. -/
structure InformationObjects where
  typeId : Nat
  objs : List GenericObject
deriving DecidableEq

def InformationObjects.len (io : InformationObjects) : Nat :=
  io.objs.length

/-- One chunk step of the multi-object branch of
InformationObjects::build_objects: bytes.chunks(object_size + 3) with a
3-byte little-endian address in front of each payload. Rust indexes
chunk[2] and slices chunk[3..], which panics when the final short chunk
has fewer than 3 bytes. -/
def buildMultiObjects (objectSize : Nat) (bytes : List Nat) :
    RustResult IOParseError (List GenericObject) :=
  match bytes with
  | [] => .ok []
  | b0 :: rest =>
    match rest with
    | b1 :: b2 :: tail =>
      let address := b2 * 65536 + b1 * 256 + b0
      let obj := tail.take objectSize
      (buildMultiObjects objectSize (tail.drop objectSize)).map
        (fun objs => ⟨address, obj⟩ :: objs)
    | _ => .panicked
termination_by bytes.length
decreasing_by simp; omega

/-- The loop over other_chunks in the sequence branch of build_objects.
Each chunk is exactly object_size bytes; Rust slices chunk[3..] of each,
which panics when object_size < 3 (and drops the first three payload
bytes otherwise). Addresses are first_addr + i + 1. -/
def buildSeqOtherObjects (objectSize firstAddr : Nat) (i : Nat)
    (bytes : List Nat) : RustResult IOParseError (List GenericObject) :=
  match bytes with
  | [] => .ok []
  | b :: rest =>
    if objectSize < 3 then .panicked
    else
      let chunk := (b :: rest).take objectSize
      let obj := chunk.drop 3
      (buildSeqOtherObjects objectSize firstAddr (i + 1)
          ((b :: rest).drop objectSize)).map
        (fun objs => ⟨firstAddr + i + 1, obj⟩ :: objs)
termination_by bytes.length
decreasing_by simp; omega

/-- InformationObjects::build_objects of src/types.rs. The num_objs
argument is only used for the initial capacity in Rust and has no
semantic effect. chunks_exact(0) panics in Rust, hence the explicit
panicked outcome when the sequence flag is set with object size 0. -/
def buildObjects (typeId : Nat) (sequence : Bool) (numObjs : Nat)
    (bytes : List Nat) : RustResult IOParseError (List GenericObject) :=
  let _ := numObjs
  let objectSize := typeIdSize typeId
  if sequence then
    if bytes.length < objectSize + 3 then .err .notEnoughBytes
    else
      let firstChunk := bytes.take (objectSize + 3)
      let otherChunks := bytes.drop (objectSize + 3)
      let firstAddr := firstChunk.getD 2 0 * 65536 + firstChunk.getD 1 0 * 256 +
        firstChunk.getD 0 0
      let firstObj := firstChunk.drop 3
      if objectSize = 0 then .panicked
      else if otherChunks.length % objectSize ≠ 0 then .err .notEnoughBytes
      else
        (buildSeqOtherObjects objectSize firstAddr 0 otherChunks).map
          (fun objs => ⟨firstAddr, firstObj⟩ :: objs)
  else
    buildMultiObjects (typeIdSize typeId) bytes

/-- Type codes dispatched to build_objects by
InformationObjects::from_bytes in src/types.rs. -/
def typeIdHasObjectCodec (t : Nat) : Bool :=
  t ∈ ([1, 2, 3, 4, 5, 6, 7, 9, 10, 11, 12, 13, 14, 15, 17, 18, 19, 20, 21,
        30, 31, 32, 33, 34, 35, 36, 37, 38, 39, 40, 70,
        45, 46, 47, 48, 49, 50, 51, 58, 59, 60, 61, 62, 63, 64,
        100, 101, 102, 103, 104, 105, 106, 107, 110, 111, 112, 113] : List Nat)

/-- File-transfer type codes, rejected with NotImplemented. -/
def typeIdIsFileTransfer (t : Nat) : Bool :=
  t ∈ ([120, 121, 122, 123, 124, 125, 126] : List Nat)

/-- InformationObjects::from_bytes of src/types.rs: dispatch on the type
code; file-transfer types are NotImplemented and the remaining
(non-standard) codes are rejected as an invalid type. -/
def informationObjectsFromBytes (typeId : Nat) (sequence : Bool)
    (numObjs : Nat) (bytes : List Nat) :
    RustResult IOParseError InformationObjects :=
  if typeIdIsFileTransfer typeId then .err .notImplemented
  else if typeIdHasObjectCodec typeId then
    (buildObjects typeId sequence numObjs bytes).map
      (fun objs => ⟨typeId, objs⟩)
  else .err .invalidType

/-- InformationObjects::serialize_objects of src/types.rs: each object is
written as its 3-byte little-endian address followed by its payload; the
sequence flag is ignored (the source carries a TODO for it). -/
def serializeObjects (objs : List GenericObject) (buffer : List Nat) :
    List Nat :=
  objs.foldl
    (fun buf o =>
      buf ++ [o.address % 256, o.address / 256 % 256, o.address / 65536 % 256]
        ++ o.objectBytes)
    buffer

/-- InformationObjects::to_bytes of src/types.rs (all variants serialize
through serialize_objects). -/
def informationObjectsToBytes (io : InformationObjects)
    (buffer : List Nat) : Except IOParseError (List Nat) :=
  .ok (serializeObjects io.objs buffer)

/-- AsduError of src/asdu.rs. -/
inductive AsduError where
  | invalidCot
  | numberOfObjects
  | invalidInformationObject (e : IOParseError)
  | tooManyObjects
  | notEnoughBytes
deriving DecidableEq

/-- The Asdu structure of src/asdu.rs. The cot field stores the 6-bit
discriminant of the Cot enum. -/
structure Asdu where
  typeId : Nat
  cot : Nat
  originatorAddress : Nat
  addressField : Nat
  sequence : Bool
  test : Bool
  positive : Bool
  informationObjects : InformationObjects
deriving DecidableEq

/-- Asdu::parse of src/asdu.rs. The length checks mirror the source; with
the sequence flag set the source computes (remaining - 3) % object_size
and (remaining - 3) / object_size, which panic when object_size is 0, and
the usize subtraction wraps (release) or panics (debug) when fewer than 3
bytes remain, modelled here by usizeSub. -/
def asduParse (bytes : List Nat) : RustResult AsduError Asdu :=
  match bytes.get? 0, bytes.get? 1, bytes.get? 2, bytes.get? 3,
      bytes.get? 4, bytes.get? 5 with
  | some b0, some b1, some b2, some b3, some b4, some b5 =>
    let typeId := b0
    let sequence := b1 &&& 128 ≠ 0
    let numObjs := b1 &&& 127
    let test := b2 &&& 128 ≠ 0
    let positive := b2 &&& 64 ≠ 0
    match cotTryFrom (b2 &&& 63) with
    | none => .err .invalidCot
    | some cot =>
      let originatorAddress := b3
      let addressField := b5 * 256 + b4
      let objectSize := typeIdSize typeId
      let remaining := bytes.drop 6
      let remainingSize := remaining.length
      if sequence ∧ objectSize = 0 then .panicked
      else
        let isMultiple :=
          if sequence then usizeSub remainingSize 3 % objectSize ≠ 0
          else remainingSize % (objectSize + 3) ≠ 0
        let numObjsMismatch :=
          if sequence then usizeSub remainingSize 3 / objectSize ≠ numObjs
          else remainingSize / (objectSize + 3) ≠ numObjs
        if isMultiple ∨ numObjsMismatch then .err .numberOfObjects
        else
          match informationObjectsFromBytes typeId sequence numObjs remaining with
          | .ok io =>
            .ok ⟨typeId, cot, originatorAddress, addressField, sequence, test,
              positive, io⟩
          | .err e => .err (.invalidInformationObject e)
          | .panicked => .panicked
  | _, _, _, _, _, _ => .err .notEnoughBytes

/-- Asdu::to_bytes of src/asdu.rs. -/
def asduToBytes (a : Asdu) (buffer : List Nat) :
    Except AsduError (List Nat) :=
  let buffer := buffer ++ [a.typeId]
  let numObjs := a.informationObjects.len
  if numObjs > 127 then .error .tooManyObjects
  else
    let b1 := if a.sequence then numObjs ||| 128 else numObjs
    let b2 := (if a.test then a.cot ||| 128 else a.cot) |||
      (if a.positive then 64 else 0)
    let buffer := buffer ++ [b1, b2, a.originatorAddress,
      a.addressField % 256, a.addressField / 256 % 256]
    match informationObjectsToBytes a.informationObjects buffer with
    | .ok buf => .ok buf
    | .error e => .error (.invalidInformationObject e)

/-- I-frame of src/apdu.rs. -/
structure IFrame where
  sendSequenceNumber : Nat
  receiveSequenceNumber : Nat
  asdu : Asdu
deriving DecidableEq

/-- S-frame of src/apdu.rs. -/
structure SFrame where
  receiveSequenceNumber : Nat
deriving DecidableEq

/-- U-frame of src/apdu.rs. -/
structure UFrame where
  startDtActivation : Bool
  startDtConfirmation : Bool
  stopDtActivation : Bool
  stopDtConfirmation : Bool
  testFrActivation : Bool
  testFrConfirmation : Bool
deriving DecidableEq

inductive Frame where
  | I (i : IFrame)
  | S (s : SFrame)
  | U (u : UFrame)
deriving DecidableEq

/-- Errors of src/error.rs reachable from the APDU codec. -/
inductive ApduError where
  | apduTooShort
  | invalidTelegramHeader
  | invalidLength
  | invalidControlField
  | invalidIFrameControlFields
  | invalidSFrameControlFields
  | invalidUFrameControlFields
  | invalidAsdu (e : AsduError)
deriving DecidableEq

/-- The Apdu structure of src/apdu.rs: the raw length byte is stored as
read from the wire. -/
structure Apdu where
  length : Nat
  frame : Frame
deriving DecidableEq

/-- UFrame::from_control_fields of src/apdu.rs over the four control
bytes. -/
def uFrameFromControlFields (c0 c1 c2 c3 : Nat) :
    Except ApduError UFrame :=
  if c1 ≠ 0 ∨ c2 ≠ 0 ∨ c3 ≠ 0 then .error .invalidUFrameControlFields
  else
    .ok ⟨c0 &&& 4 ≠ 0, c0 &&& 8 ≠ 0, c0 &&& 16 ≠ 0, c0 &&& 32 ≠ 0,
      c0 &&& 64 ≠ 0, c0 &&& 128 ≠ 0⟩

/-- SFrame::from_control_fields of src/apdu.rs. Bit 0 of the third
control byte is not inspected; the RSN is u16::from_be_bytes of the
fourth byte and the shifted third byte. -/
def sFrameFromControlFields (c0 c1 c2 c3 : Nat) :
    Except ApduError SFrame :=
  if c0 ≠ 1 ∨ c1 ≠ 0 then .error .invalidSFrameControlFields
  else .ok ⟨c3 * 256 + c2 / 2⟩

/-- Frame::from_control_fields of src/apdu.rs: dispatch on the low two
bits of the first control byte. -/
def frameFromControlFields (c0 c1 c2 c3 : Nat) : Except ApduError Frame :=
  if c0 &&& 3 = 3 then (uFrameFromControlFields c0 c1 c2 c3).map Frame.U
  else if c0 &&& 3 = 1 then (sFrameFromControlFields c0 c1 c2 c3).map Frame.S
  else .error .invalidControlField

/-- IFrame::from_asdu of src/apdu.rs: bit 0 of the first and third
control bytes must be clear, and the sequence numbers are
u16::from_be_bytes of the even byte and the shifted odd byte. -/
def iFrameFromAsdu (c0 c1 c2 c3 : Nat) (asduBytes : List Nat) :
    RustResult ApduError IFrame :=
  if c0 &&& 1 ≠ 0 ∨ c2 &&& 1 ≠ 0 then .err .invalidIFrameControlFields
  else
    match asduParse asduBytes with
    | .ok a => .ok ⟨c1 * 256 + c0 / 2, c3 * 256 + c2 / 2, a⟩
    | .err e => .err (.invalidAsdu e)
    | .panicked => .panicked

/-- Apdu::from_bytes of src/apdu.rs. The length byte is compared with the
maximum 253 and with the value 4 but never with the number of bytes
actually supplied. -/
def apduFromBytes (data : List Nat) : RustResult ApduError Apdu :=
  if data.length < 6 then .err .apduTooShort
  else if data.getD 0 0 ≠ 104 then .err .invalidTelegramHeader
  else
    let length := data.getD 1 0
    if length > 253 then .err .invalidLength
    else
      let c0 := data.getD 2 0
      let c1 := data.getD 3 0
      let c2 := data.getD 4 0
      let c3 := data.getD 5 0
      if length = 4 then
        match frameFromControlFields c0 c1 c2 c3 with
        | .ok f => .ok ⟨length, f⟩
        | .error e => .err e
      else
        match iFrameFromAsdu c0 c1 c2 c3 (data.drop 6) with
        | .ok i => .ok ⟨length, .I i⟩
        | .err e => .err e
        | .panicked => .panicked

/-- IFrame::to_bytes of src/apdu.rs: the low byte of each sequence number
is shifted left by one as a u8, so its top bit is discarded. -/
def iFrameToBytes (i : IFrame) (buffer : List Nat) :
    Except ApduError (List Nat) :=
  let ssnLo := i.sendSequenceNumber % 256
  let ssnHi := i.sendSequenceNumber / 256 % 256
  let rsnLo := i.receiveSequenceNumber % 256
  let rsnHi := i.receiveSequenceNumber / 256 % 256
  let buffer := buffer ++ [ssnLo * 2 % 256, ssnHi, rsnLo * 2 % 256, rsnHi]
  match asduToBytes i.asdu buffer with
  | .ok buf => .ok buf
  | .error e => .error (.invalidAsdu e)

/-- SFrame::to_bytes of src/apdu.rs. -/
def sFrameToBytes (s : SFrame) (buffer : List Nat) : List Nat :=
  let rsnLo := s.receiveSequenceNumber % 256
  let rsnHi := s.receiveSequenceNumber / 256 % 256
  buffer ++ [1, 0, rsnLo * 2 % 256, rsnHi]

/-- UFrame::to_bytes of src/apdu.rs. -/
def uFrameToBytes (u : UFrame) (buffer : List Nat) : List Nat :=
  let b := 3
  let b := if u.startDtActivation then b ||| 4 else b
  let b := if u.startDtConfirmation then b ||| 8 else b
  let b := if u.stopDtActivation then b ||| 16 else b
  let b := if u.stopDtConfirmation then b ||| 32 else b
  let b := if u.testFrActivation then b ||| 64 else b
  let b := if u.testFrConfirmation then b ||| 128 else b
  buffer ++ [b, 0, 0, 0]

/-- Frame::to_bytes of src/apdu.rs. -/
def frameToBytes (f : Frame) (buffer : List Nat) :
    Except ApduError (List Nat) :=
  match f with
  | .I i => iFrameToBytes i buffer
  | .S s => .ok (sFrameToBytes s buffer)
  | .U u => .ok (uFrameToBytes u buffer)

/-- Apdu::to_bytes of src/apdu.rs: header byte, the stored length byte,
then the frame bytes. -/
def apduToBytes (a : Apdu) : Except ApduError (List Nat) :=
  frameToBytes a.frame [104, a.length]

/-- Frame::to_apdu_bytes of src/apdu.rs: header, placeholder length, the
frame bytes, then the length byte is backfilled with the byte count minus
2 (as a u8). -/
def frameToApduBytes (f : Frame) : Except ApduError (List Nat) :=
  match frameToBytes f [104, 0] with
  | .ok buf => .ok (buf.set 1 ((buf.length - 2) % 256))
  | .error e => .error e

/-- Iterator::position of the Rust standard library, specialised to the
sequence-number queue: index of the first element satisfying p. -/
def position (p : Nat → Bool) : List Nat → Option Nat
  | [] => none
  | a :: as => if p a then some 0 else (position p as).map (fun i => i + 1)

/-- The oldest_valid_seq_num computation of
ReceiveHandler::check_sequence_acknowledge: the sequence number one
before the oldest queue entry, with wraparound at 0. -/
def oldestValidSeqNum (oldest : Nat) : Nat :=
  if oldest = 0 then 32767 else (oldest - 1) % 32768

/-- The is_valid computation of check_sequence_acknowledge: the in-range
test on the window between the oldest and newest queue entries, with the
wraparound form when the window crosses 0. -/
def isValidWindow (oldest newest frameRss : Nat) : Bool :=
  if oldest ≤ newest then
    decide (frameRss ≥ oldest) && decide (frameRss ≤ newest)
  else
    decide (frameRss ≥ oldest) || decide (frameRss ≤ newest)

/-- ReceiveHandler::check_sequence_acknowledge of
src/link/receive_handler.rs. The queue holds the u16 sequence values of
the (u16, Instant) deque entries, oldest first; back() is the newest and
front() the oldest entry. The functional result: some q1 models Ok with
q1 the drained deque, none models the error return (which leaves the
deque untouched in Rust). -/
def checkSequenceAcknowledge (q : List Nat) (frameRss sentCounter : Nat) :
    Option (List Nat) :=
  match q.getLast?, q.head? with
  | some newest, some oldest =>
    if oldestValidSeqNum oldest = frameRss then some q
    else if isValidWindow oldest newest frameRss then
      match position (fun seq => seq == frameRss) q with
      | some i => some (q.drop (i + 1))
      | none => none
    else none
  | _, _ => if frameRss = sentCounter then some q else none

/-- The session state mutated by the receive task of
src/link/receive_handler.rs. Timer deadlines and the Instant components
of the queue entries are not representable and are omitted; timer actions
are reported as step effects instead. -/
structure SessionState where
  sentCounter : Nat
  receivedCounter : Nat
  unackSeqNum : List Nat
  unackRcvFrames : Nat
  outstandingTestFrCon : Nat
  outBufferFull : Bool
deriving DecidableEq

/-- The state installed by ReceiveHandler::new (the out_buffer_full flag
is created as false by Client::new). -/
def initSessionState : SessionState :=
  ⟨0, 0, [], 0, 0, false⟩

/-- Outcome of ReceiveHandler::handle_send_asdu: the frames written to
the socket, the session state after the call, and whether the call
returned Ok. On a full queue the I-frame has already been written and
sent_counter incremented before the error return. -/
structure SendOutcome where
  emitted : List Frame
  state : SessionState
  ok : Bool
deriving DecidableEq

/-- ReceiveHandler::handle_send_asdu of src/link/receive_handler.rs. The
frame is stamped with the current counters and serialized by send_frame
first (an encoding failure returns before any mutation); then
sent_counter is incremented mod 32768; the incremented value is pushed to
the queue only when it held fewer than k entries, otherwise the function
fails after the increment without touching the queue or
unacknowledged_rcv_frames. -/
def handleSendAsdu (k : Nat) (a : Asdu) (st : SessionState) : SendOutcome :=
  let frame := Frame.I ⟨st.sentCounter, st.receivedCounter, a⟩
  match frameToApduBytes frame with
  | .error _ => ⟨[], st, false⟩
  | .ok _ =>
    let sent1 := (st.sentCounter + 1) % 32768
    if st.unackSeqNum.length < k then
      ⟨[frame], { st with
        sentCounter := sent1,
        unackSeqNum := st.unackSeqNum ++ [sent1],
        unackRcvFrames := 0 }, true⟩
    else
      ⟨[frame], { st with sentCounter := sent1 }, false⟩

/-- ReceiveHandler::handle_receive_i_frame of
src/link/receive_handler.rs. The t1_i timer re-arm on a non-empty queue
only touches a timer and is omitted. -/
def handleReceiveIFrame (k : Nat) (i : IFrame) (st : SessionState) :
    Option SessionState :=
  if i.sendSequenceNumber ≠ st.receivedCounter then none
  else
    match checkSequenceAcknowledge st.unackSeqNum i.receiveSequenceNumber
        st.sentCounter with
    | none => none
    | some q1 =>
      some { st with
        unackSeqNum := q1,
        outBufferFull := decide (q1.length ≥ k),
        receivedCounter := (st.receivedCounter + 1) % 32768,
        unackRcvFrames := st.unackRcvFrames + 1 }

/-- ReceiveHandler::handle_receive_s_frame of
src/link/receive_handler.rs. -/
def handleReceiveSFrame (k : Nat) (rsn : Nat) (st : SessionState) :
    Option SessionState :=
  match checkSequenceAcknowledge st.unackSeqNum rsn st.sentCounter with
  | none => none
  | some q1 =>
    some { st with unackSeqNum := q1, outBufferFull := decide (q1.length ≥ k) }

/-- The constant U-frames of src/link (mirroring the identically named
lazy statics in src/client.rs). -/
def testFrConFrame : Frame := .U ⟨false, false, false, false, false, true⟩

def testFrActFrame : Frame := .U ⟨false, false, false, false, true, false⟩

def startDtConFrame : Frame := .U ⟨false, true, false, false, false, false⟩

def stopDtConFrame : Frame := .U ⟨false, false, false, true, false, false⟩

/-- Observable side effects of one engine iteration: frames written to
the socket and timer actions. -/
structure StepEffects where
  frames : List Frame
  t2Rearmed : Bool
  t1uDisarmed : Bool
deriving DecidableEq

def noEffects : StepEffects := ⟨[], false, false⟩

/-- ReceiveHandler::handle_receive_u_frame of
src/link/receive_handler.rs: the five explicit flag branches in source
order; any U-frame with none of the test-activation,
start-activation/confirmation and stop-activation/confirmation flags set
falls into the final else branch, which clears
outstanding_test_fr_con_messages and disarms t1_u. The returned Bool is
the should_stop result; none models the fatal error of a client
receiving a StartDT activation. -/
def handleReceiveUFrame (server : Bool) (u : UFrame) (st : SessionState) :
    Option (SessionState × StepEffects × Bool) :=
  if u.testFrActivation then some (st, ⟨[testFrConFrame], false, false⟩, false)
  else if u.startDtActivation then
    if server then some (st, ⟨[startDtConFrame], false, false⟩, false)
    else none
  else if u.startDtConfirmation then some (st, noEffects, false)
  else if u.stopDtActivation then
    some (st, ⟨[stopDtConFrame], false, false⟩, true)
  else if u.stopDtConfirmation then some (st, noEffects, true)
  else some ({ st with outstandingTestFrCon := 0 }, ⟨[], false, true⟩, false)

/-- One select-arm event of the receive_task loop in
src/link/receive_handler.rs: an ASDU send command or a received frame. -/
inductive Op where
  | sendAsdu (a : Asdu)
  | recvI (i : IFrame)
  | recvS (rsn : Nat)
  | recvU (u : UFrame)

/-- The select-arm body of one receive_task iteration: dispatch the event
to its handler. After a successful send the task stores
out_buffer_full := queue length ≥ k and re-arms t2; a handler error
makes receive_task return (none). -/
def handlerStep (k : Nat) (server : Bool) (st : SessionState) (op : Op) :
    Option (SessionState × StepEffects × Bool) :=
  match op with
  | .sendAsdu a =>
    let r := handleSendAsdu k a st
    if r.ok then
      some ({ r.state with
        outBufferFull := decide (r.state.unackSeqNum.length ≥ k) },
        ⟨r.emitted, true, false⟩, false)
    else none
  | .recvI i =>
    match handleReceiveIFrame k i st with
    | some st1 => some (st1, noEffects, false)
    | none => none
  | .recvS rsn =>
    match handleReceiveSFrame k rsn st with
    | some st1 => some (st1, noEffects, false)
    | none => none
  | .recvU u => handleReceiveUFrame server u st

/-- One full iteration of the receive_task loop: the select-arm handler
followed by the trailing check that emits an S-frame carrying the
current received_counter, resets unacknowledged_rcv_frames and re-arms
t2 whenever the count exceeds w. A should_stop result returns from
receive_task before the trailing check (none: the session is over). -/
def receiveTaskStep (k w : Nat) (server : Bool) (st : SessionState)
    (op : Op) : Option (SessionState × StepEffects) :=
  match handlerStep k server st op with
  | none => none
  | some (st1, eff, shouldStop) =>
    if shouldStop then none
    else if st1.unackRcvFrames > w then
      some ({ st1 with unackRcvFrames := 0 },
        ⟨eff.frames ++ [Frame.S ⟨st1.receivedCounter⟩], true, eff.t1uDisarmed⟩)
    else some (st1, eff)

/-- Iterated receive_task loop from a given state. -/
def runOps (k w : Nat) (server : Bool) : SessionState → List Op →
    Option SessionState
  | st, [] => some st
  | st, op :: ops =>
    match receiveTaskStep k w server st op with
    | none => none
    | some (st1, _) => runOps k w server st1 ops

/-- Per-call errors of Client::send_asdu in src/client.rs. -/
inductive ClientSendError where
  | outputBufferFull
  | noWriteConnection
deriving DecidableEq

/-- Client::send_asdu of src/client.rs: fail fast when the
out_buffer_full flag is set, otherwise hand the ASDU to the engine
through the command channel (the ok value is the queued ASDU); without a
write channel the call fails as well. The fast failure touches no
session state and closes nothing. -/
def clientSendAsdu (outBufferFull : Bool) (hasWriteTx : Bool) (a : Asdu) :
    Except ClientSendError Asdu :=
  if outBufferFull then .error .outputBufferFull
  else if hasWriteTx then .ok a
  else .error .noWriteConnection

/-- ParseTimeError of src/types/time.rs. -/
inductive ParseTimeError where
  | nanoseconds
  | milliseconds
  | seconds
  | minutes
  | hours
  | days
  | months
  | years
deriving DecidableEq

/-- Cp56Time2a of src/types/time.rs. -/
structure Cp56Time2a where
  ms : Nat
  iv : Bool
  min : Nat
  summerTime : Bool
  hour : Nat
  weekday : Nat
  day : Nat
  month : Nat
  year : Nat
deriving DecidableEq

/-- Cp56Time2a::from_bytes of src/types/time.rs over the seven input
bytes: bit-field extraction followed by the six sequential range
checks. -/
def cp56FromBytes (b0 b1 b2 b3 b4 b5 b6 : Nat) :
    Except ParseTimeError Cp56Time2a :=
  let ms := b1 * 256 + b0
  let iv := b2 &&& 128 ≠ 0
  let min := b2 &&& 63
  let summerTime := b3 &&& 128 ≠ 0
  let hour := b3 &&& 31
  let weekday := (b4 &&& 224) / 32
  let day := b4 &&& 31
  let month := b5 &&& 15
  let year := b6 &&& 127
  if ms > 59999 then .error .milliseconds
  else if min > 59 then .error .minutes
  else if hour > 23 then .error .hours
  else if day > 31 then .error .days
  else if month > 12 then .error .months
  else if year > 99 then .error .years
  else .ok ⟨ms, iv, min, summerTime, hour, weekday, day, month, year⟩

/-- A concrete well-formed ASDU: one interrogation command (type 100,
object size 1) with COT 6, common address 12, information object address
0 and QOI byte 20. -/
def sampleAsdu : Asdu := ⟨100, 6, 0, 12, false, false, false, ⟨100, [⟨0, [20]⟩]⟩⟩

/-- C1: the claim states that decoding the bytes produced by encoding any
well-formed APDU yields the same value again, in particular for frames
whose sequence number has bit 7 of its low byte set. The code refutes
this: the S-frame with receive sequence number 128 (a 15-bit value)
encodes to 68 04 01 00 00 00 because SFrame::to_bytes shifts the low
byte left as a u8 and discards its top bit, and those bytes decode to
the S-frame with receive sequence number 0. -/
theorem c1_roundtrip_fails :
    apduToBytes ⟨4, .S ⟨128⟩⟩ = .ok [104, 4, 1, 0, 0, 0]
    ∧ apduFromBytes [104, 4, 1, 0, 0, 0] = .ok ⟨4, .S ⟨0⟩⟩
    ∧ (Apdu.mk 4 (.S ⟨0⟩)) ≠ ⟨4, .S ⟨128⟩⟩ := by
  refine ⟨by decide, by decide, by decide⟩

/-- C2: the claim states that re-encoding any byte string accepted by
Apdu::from_bytes yields exactly the input. The code refutes this: the
bytes 68 04 01 00 03 00 are accepted as an S-frame with receive sequence
number 1 because SFrame::from_control_fields never checks bit 0 of the
third control byte, and the decoded value re-encodes to
68 04 01 00 02 00. -/
theorem c2_reencode_fails :
    apduFromBytes [104, 4, 1, 0, 3, 0] = .ok ⟨4, .S ⟨1⟩⟩
    ∧ apduToBytes ⟨4, .S ⟨1⟩⟩ = .ok [104, 4, 1, 0, 2, 0]
    ∧ ([104, 4, 1, 0, 2, 0] : List Nat) ≠ [104, 4, 1, 0, 3, 0] := by
  refine ⟨by decide, by decide, by decide⟩

/-- C4: the claim states that Asdu::parse always returns an ASDU or one
of the decode errors and that the length check never panics, in
particular when the type code has object size 0. The code refutes this:
type C_RD_NA_1 (code 102) has size 0, and parsing a sequence-flagged
ASDU of that type evaluates (remaining_bytes_size - 3) % 0, a remainder
by zero, which panics in Rust in every build profile. -/
theorem c4_parse_panics :
    typeIdSize 102 = 0
    ∧ asduParse [102, 129, 6, 0, 0, 0, 0, 0, 0] = .panicked := by
  refine ⟨by decide, by decide⟩

/-- C5 counterexample: from the initial session state the accepted send
of sampleAsdu emits the I-frame stamped with SSN 0, but the entry
appended to the unacknowledged queue is 1, the post-increment
sent_counter, not the stamped SSN, refuting the claim that the appended
pair carries the SSN of the emitted frame. -/
theorem c5_queue_entry_is_not_ssn :
    (handleSendAsdu 12 sampleAsdu initSessionState).ok = true
    ∧ (handleSendAsdu 12 sampleAsdu initSessionState).emitted =
        [.I ⟨0, 0, sampleAsdu⟩]
    ∧ (handleSendAsdu 12 sampleAsdu initSessionState).state.unackSeqNum = [1]
    ∧ ([1] : List Nat) ≠ [0] := by
  refine ⟨by decide, by decide, by decide, by decide⟩

/-- C5 amended: for every ASDU accepted by handle_send_asdu the emitted
I-frame carries SSN = the pre-call sent_counter and RSN = the pre-call
received_counter, the new sent_counter is (old + 1) mod 32768, and the
entry appended to the unacknowledged queue is that post-increment
counter value (SSN + 1) mod 32768. -/
theorem c5_handle_send_asdu_spec (k : Nat) (a : Asdu) (st : SessionState)
    (h : (handleSendAsdu k a st).ok = true) :
    (handleSendAsdu k a st).emitted =
      [.I ⟨st.sentCounter, st.receivedCounter, a⟩]
    ∧ (handleSendAsdu k a st).state.sentCounter = (st.sentCounter + 1) % 32768
    ∧ (handleSendAsdu k a st).state.receivedCounter = st.receivedCounter
    ∧ (handleSendAsdu k a st).state.unackSeqNum =
        st.unackSeqNum ++ [(st.sentCounter + 1) % 32768] := by
  cases hEnc : frameToApduBytes (.I ⟨st.sentCounter, st.receivedCounter, a⟩) with
  | error e => simp [handleSendAsdu, hEnc] at h
  | ok bs =>
    by_cases hq : st.unackSeqNum.length < k
    · simp [handleSendAsdu, hEnc, hq]
    · simp [handleSendAsdu, hEnc, hq] at h

/-- C5 witness: the amended statement evaluated at the initial state with
the sample ASDU and k = 12. -/
theorem c5_handle_send_asdu_spec_witness :
    (handleSendAsdu 12 sampleAsdu initSessionState).emitted =
      [.I ⟨0, 0, sampleAsdu⟩]
    ∧ (handleSendAsdu 12 sampleAsdu initSessionState).state.sentCounter = 1
    ∧ (handleSendAsdu 12 sampleAsdu initSessionState).state.receivedCounter = 0
    ∧ (handleSendAsdu 12 sampleAsdu initSessionState).state.unackSeqNum = [1] := by
  have h := c5_handle_send_asdu_spec 12 sampleAsdu initSessionState (by decide)
  simpa [initSessionState] using h

/-- A session state whose unacknowledged queue is full for k = 2. -/
def fullQueueState : SessionState := ⟨2, 0, [1, 2], 3, 0, true⟩

/-- C6 counterexample: a send command processed by handle_send_asdu while
the queue already holds k = 2 entries does not fail without effect: the
I-frame is still written to the socket, sent_counter is still
incremented, and the call returns the fatal error that closes the
connection, refuting the claim that such a call emits nothing, changes
no state and is not fatal. -/
theorem c6_full_queue_send_is_not_a_noop :
    (handleSendAsdu 2 sampleAsdu fullQueueState).ok = false
    ∧ (handleSendAsdu 2 sampleAsdu fullQueueState).emitted =
        [.I ⟨2, 0, sampleAsdu⟩]
    ∧ (handleSendAsdu 2 sampleAsdu fullQueueState).state.sentCounter = 3
    ∧ fullQueueState.sentCounter = 2 := by
  refine ⟨by decide, by decide, by decide, by decide⟩

/-- C6 amended: the per-call fast failure lives in Client::send_asdu,
which rejects the call with OutputBufferFull as soon as the
out_buffer_full flag is set, before anything reaches the engine, leaving
all session state untouched and the connection alive; a command that
nevertheless reaches handle_send_asdu with the queue at k entries still
emits the I-frame and increments sent_counter (queue and
unacknowledged_rcv_frames unchanged) and returns the error that closes
the connection. -/
theorem c6_send_asdu_backpressure (a : Asdu) (st : SessionState) (k : Nat)
    (tx : Bool) (hfull : ¬ st.unackSeqNum.length < k)
    (henc : ∃ bs, frameToApduBytes
      (.I ⟨st.sentCounter, st.receivedCounter, a⟩) = .ok bs) :
    clientSendAsdu true tx a = .error .outputBufferFull
    ∧ (handleSendAsdu k a st).ok = false
    ∧ (handleSendAsdu k a st).emitted =
        [.I ⟨st.sentCounter, st.receivedCounter, a⟩]
    ∧ (handleSendAsdu k a st).state.sentCounter = (st.sentCounter + 1) % 32768
    ∧ (handleSendAsdu k a st).state.unackSeqNum = st.unackSeqNum
    ∧ (handleSendAsdu k a st).state.unackRcvFrames = st.unackRcvFrames := by
  obtain ⟨bs, hEnc⟩ := henc
  refine ⟨by simp [clientSendAsdu], ?_, ?_, ?_, ?_, ?_⟩ <;>
    simp [handleSendAsdu, hEnc, hfull]

/-- C6 witness: the amended statement evaluated at the full-queue state
with k = 2 and the sample ASDU. -/
theorem c6_send_asdu_backpressure_witness :
    clientSendAsdu true true sampleAsdu = .error .outputBufferFull
    ∧ (handleSendAsdu 2 sampleAsdu fullQueueState).ok = false
    ∧ (handleSendAsdu 2 sampleAsdu fullQueueState).emitted =
        [.I ⟨fullQueueState.sentCounter, fullQueueState.receivedCounter,
          sampleAsdu⟩]
    ∧ (handleSendAsdu 2 sampleAsdu fullQueueState).state.sentCounter =
        (fullQueueState.sentCounter + 1) % 32768
    ∧ (handleSendAsdu 2 sampleAsdu fullQueueState).state.unackSeqNum =
        fullQueueState.unackSeqNum
    ∧ (handleSendAsdu 2 sampleAsdu fullQueueState).state.unackRcvFrames =
        fullQueueState.unackRcvFrames :=
  c6_send_asdu_backpressure sampleAsdu fullQueueState 2 true (by decide)
    ⟨[104, 14, 4, 0, 0, 0, 100, 1, 6, 0, 12, 0, 0, 0, 0, 20], by decide⟩

/-- C9: Cp56Time2a::from_bytes on any 7-byte input extracts the fields
by the specified bit layout, succeeds with exactly those fields if and
only if every extracted field is in range, and any failure is the range
error of a violated field; no other outcome exists. -/
theorem c9_cp56_from_bytes_spec (b0 b1 b2 b3 b4 b5 b6 : Nat)
    (_h0 : b0 < 256) (_h1 : b1 < 256) (_h2 : b2 < 256) (_h3 : b3 < 256)
    (_h4 : b4 < 256) (_h5 : b5 < 256) (_h6 : b6 < 256) :
    (b1 * 256 + b0 ≤ 59999 → b2 &&& 63 ≤ 59 → b3 &&& 31 ≤ 23 →
      b4 &&& 31 ≤ 31 → b5 &&& 15 ≤ 12 → b6 &&& 127 ≤ 99 →
      cp56FromBytes b0 b1 b2 b3 b4 b5 b6 =
        .ok ⟨b1 * 256 + b0, b2 &&& 128 ≠ 0, b2 &&& 63, b3 &&& 128 ≠ 0,
          b3 &&& 31, (b4 &&& 224) / 32, b4 &&& 31, b5 &&& 15, b6 &&& 127⟩)
    ∧ ((cp56FromBytes b0 b1 b2 b3 b4 b5 b6).isOk = true ↔
        (b1 * 256 + b0 ≤ 59999 ∧ b2 &&& 63 ≤ 59 ∧ b3 &&& 31 ≤ 23 ∧
          b4 &&& 31 ≤ 31 ∧ b5 &&& 15 ≤ 12 ∧ b6 &&& 127 ≤ 99))
    ∧ (∀ e, cp56FromBytes b0 b1 b2 b3 b4 b5 b6 = .error e →
        (e = .milliseconds ∧ b1 * 256 + b0 > 59999)
        ∨ (e = .minutes ∧ b2 &&& 63 > 59)
        ∨ (e = .hours ∧ b3 &&& 31 > 23)
        ∨ (e = .days ∧ b4 &&& 31 > 31)
        ∨ (e = .months ∧ b5 &&& 15 > 12)
        ∨ (e = .years ∧ b6 &&& 127 > 99)) := by
  refine ⟨?_, ?_, ?_⟩
  · intro hms hmin hh hd hmo hy
    simp [cp56FromBytes, Nat.not_lt.mpr hms, Nat.not_lt.mpr hmin,
      Nat.not_lt.mpr hh, Nat.not_lt.mpr hd, Nat.not_lt.mpr hmo,
      Nat.not_lt.mpr hy]
  · simp only [cp56FromBytes]
    split_ifs <;> simp [Except.isOk, Except.toBool] <;> omega
  · intro e
    simp only [cp56FromBytes]
    split_ifs <;> simp_all

/-- C9 witness: the characterisation applied to the byte string
00 00 00 00 01 01 00, a valid all-zero midnight time at day 1 month 1. -/
theorem c9_cp56_from_bytes_spec_witness :
    cp56FromBytes 0 0 0 0 1 1 0 =
      .ok ⟨0, (0 : Nat) &&& 128 ≠ 0, 0, (0 : Nat) &&& 128 ≠ 0, 0, 0, 1, 1, 0⟩ := by
  have h := (c9_cp56_from_bytes_spec 0 0 0 0 1 1 0 (by decide) (by decide)
    (by decide) (by decide) (by decide) (by decide) (by decide)).1
    (by decide) (by decide) (by decide) (by decide) (by decide) (by decide)
  simpa using h

/-- C10: any four control bytes whose first byte has low two bits 11 and
whose other three bytes are zero decode to a U-frame with the six
command bits read independently (no mutual-exclusivity check, any
combination including all-zero is accepted); and the engine treats a
received U-frame with no activation bit and no start or stop
confirmation bit set as a test-frame confirmation, clearing
outstanding_test_fr_con_messages and disarming the t1_u timer. -/
theorem c10_u_frame_decode_and_confirmation (c0 : Nat) (h3 : c0 % 4 = 3)
    (st : SessionState) (server : Bool) :
    frameFromControlFields c0 0 0 0 =
      .ok (.U ⟨c0 &&& 4 ≠ 0, c0 &&& 8 ≠ 0, c0 &&& 16 ≠ 0, c0 &&& 32 ≠ 0,
        c0 &&& 64 ≠ 0, c0 &&& 128 ≠ 0⟩)
    ∧ (∀ u : UFrame, u.testFrActivation = false → u.startDtActivation = false →
        u.startDtConfirmation = false → u.stopDtActivation = false →
        u.stopDtConfirmation = false →
        handleReceiveUFrame server u st =
          some ({ st with outstandingTestFrCon := 0 }, ⟨[], false, true⟩, false)) := by
  have hand : c0 &&& 3 = 3 := by
    have h := Nat.and_pow_two_sub_one_eq_mod c0 2
    simp at h
    omega
  refine ⟨?_, ?_⟩
  · simp [frameFromControlFields, uFrameFromControlFields, hand, Except.map]
  · intro u h1 h2 h3 h4 h5
    simp [handleReceiveUFrame, h1, h2, h3, h4, h5]

/-- C10 witness: the control byte 0x83 (test-confirmation bit plus the
11 tag) and the all-zero-flag U-frame, evaluated at the initial state in
client mode. -/
theorem c10_u_frame_decode_and_confirmation_witness :
    frameFromControlFields 131 0 0 0 =
      .ok (.U ⟨(131 : Nat) &&& 4 ≠ 0, (131 : Nat) &&& 8 ≠ 0,
        (131 : Nat) &&& 16 ≠ 0, (131 : Nat) &&& 32 ≠ 0,
        (131 : Nat) &&& 64 ≠ 0, (131 : Nat) &&& 128 ≠ 0⟩)
    ∧ handleReceiveUFrame false ⟨false, false, false, false, false, true⟩
        initSessionState =
        some ({ initSessionState with outstandingTestFrCon := 0 },
          ⟨[], false, true⟩, false) := by
  have h := c10_u_frame_decode_and_confirmation 131 (by decide)
    initSessionState false
  exact ⟨h.1, h.2 ⟨false, false, false, false, false, true⟩ rfl rfl rfl rfl rfl⟩

/-- C8: at the end of every receive_task iteration the count of
unacknowledged received I-frames is at most w, and whenever the count
exceeded w after the select-arm handler ran, the iteration emitted an
S-frame carrying the current received_counter, reset the count to 0 and
re-armed timer t2. -/
theorem c8_auto_s_frame_emission (k w : Nat) (server : Bool)
    (st : SessionState) (op : Op) (st1 : SessionState) (eff : StepEffects)
    (h : receiveTaskStep k w server st op = some (st1, eff)) :
    st1.unackRcvFrames ≤ w
    ∧ (∀ stMid effMid stop,
        handlerStep k server st op = some (stMid, effMid, stop) →
        stMid.unackRcvFrames > w →
        Frame.S ⟨stMid.receivedCounter⟩ ∈ eff.frames
        ∧ st1.unackRcvFrames = 0 ∧ eff.t2Rearmed = true) := by
  cases hmid : handlerStep k server st op with
  | none => simp [receiveTaskStep, hmid] at h
  | some r =>
    obtain ⟨stMid0, eff0, stop0⟩ := r
    cases stop0 with
    | true => simp [receiveTaskStep, hmid] at h
    | false =>
      by_cases hw : stMid0.unackRcvFrames > w
      · simp [receiveTaskStep, hmid, hw] at h
        obtain ⟨hst, heff⟩ := h
        constructor
        · rw [← hst]; exact Nat.zero_le w
        · intro stMid effMid stop h2 hgt
          have heq : (stMid0, eff0, false) = (stMid, effMid, stop) :=
            Option.some.inj h2
          have h2a : stMid0 = stMid := congrArg Prod.fst heq
          rw [← h2a]
          refine ⟨?_, by rw [← hst], by rw [← heff]⟩
          rw [← heff]
          exact List.mem_append_right _ (List.mem_singleton.mpr rfl)
      · simp [receiveTaskStep, hmid, hw] at h
        obtain ⟨hst, heff⟩ := h
        constructor
        · rw [← hst]; omega
        · intro stMid effMid stop h2 hgt
          have heq : (stMid0, eff0, false) = (stMid, effMid, stop) :=
            Option.some.inj h2
          have h2a : stMid0 = stMid := congrArg Prod.fst heq
          rw [← h2a] at hgt
          exact absurd hgt hw

/-- C8 witness: one iteration receiving the ninth unacknowledged I-frame
with w = 8 emits the S-frame carrying received_counter 6 and resets the
count. -/
theorem c8_auto_s_frame_emission_witness :
    (SessionState.mk 0 6 [] 0 0 false).unackRcvFrames ≤ 8
    ∧ (∀ stMid effMid stop,
        handlerStep 12 false ⟨0, 5, [], 8, 0, false⟩
          (.recvI ⟨5, 0, sampleAsdu⟩) = some (stMid, effMid, stop) →
        stMid.unackRcvFrames > 8 →
        Frame.S ⟨stMid.receivedCounter⟩ ∈
          (StepEffects.mk [Frame.S ⟨6⟩] true false).frames
        ∧ (SessionState.mk 0 6 [] 0 0 false).unackRcvFrames = 0
        ∧ (StepEffects.mk [Frame.S ⟨6⟩] true false).t2Rearmed = true) :=
  c8_auto_s_frame_emission 12 8 false ⟨0, 5, [], 8, 0, false⟩
    (.recvI ⟨5, 0, sampleAsdu⟩) ⟨0, 6, [], 0, 0, false⟩
    ⟨[Frame.S ⟨6⟩], true, false⟩ (by decide)

/-- An accepted acknowledgement never grows the queue: the result of
check_sequence_acknowledge is the queue itself or a suffix of it. -/
theorem checkSequenceAcknowledge_length_le (q : List Nat) (rsn sent : Nat)
    (q1 : List Nat) (h : checkSequenceAcknowledge q rsn sent = some q1) :
    q1.length ≤ q.length := by
  unfold checkSequenceAcknowledge at h
  split at h
  · split_ifs at h with h1 h2
    · cases h
      exact le_refl _
    · split at h
      · cases h
        simp [List.length_drop]
      · cases h
  · split_ifs at h with h1
    · cases h
      exact le_refl _

/-- A send accepted by handle_send_asdu found the queue below k and
appended the incremented sent_counter to it. -/
theorem handleSendAsdu_ok_queue (k : Nat) (a : Asdu) (st : SessionState)
    (h : (handleSendAsdu k a st).ok = true) :
    st.unackSeqNum.length < k
    ∧ (handleSendAsdu k a st).state.unackSeqNum =
        st.unackSeqNum ++ [(st.sentCounter + 1) % 32768] := by
  cases hEnc : frameToApduBytes (.I ⟨st.sentCounter, st.receivedCounter, a⟩) with
  | error e => simp [handleSendAsdu, hEnc] at h
  | ok bs =>
    by_cases hq : st.unackSeqNum.length < k
    · simp [handleSendAsdu, hEnc, hq]
    · simp [handleSendAsdu, hEnc, hq] at h

/-- The select-arm handlers preserve the sliding-window invariant: the
queue stays at or below k entries, and a queue at exactly k entries
implies the out_buffer_full flag. -/
theorem handlerStep_window_invariant (k : Nat) (server : Bool)
    (st : SessionState) (op : Op) (r : SessionState × StepEffects × Bool)
    (h : handlerStep k server st op = some r)
    (hlen : st.unackSeqNum.length ≤ k)
    (hflag : st.unackSeqNum.length = k → st.outBufferFull = true) :
    r.1.unackSeqNum.length ≤ k
    ∧ (r.1.unackSeqNum.length = k → r.1.outBufferFull = true) := by
  cases op with
  | sendAsdu a =>
    by_cases hok : (handleSendAsdu k a st).ok = true
    · obtain ⟨hlt, hqeq⟩ := handleSendAsdu_ok_queue k a st hok
      simp only [handlerStep, hok, if_true] at h
      cases h
      constructor
      · simp [hqeq]
        omega
      · intro hk
        simp [hk]
    · simp [handlerStep, hok] at h
  | recvI i =>
    cases hri : handleReceiveIFrame k i st with
    | none => simp [handlerStep, hri] at h
    | some st1 =>
      simp only [handlerStep, hri] at h
      cases h
      unfold handleReceiveIFrame at hri
      split_ifs at hri with hssn
      split at hri
      · cases hri
      · cases hri
        rename_i q1 hq1
        have hle := checkSequenceAcknowledge_length_le _ _ _ _ hq1
        constructor
        · simp
          omega
        · intro hk
          simp_all
  | recvS rsn =>
    cases hrs : handleReceiveSFrame k rsn st with
    | none => simp [handlerStep, hrs] at h
    | some st1 =>
      simp only [handlerStep, hrs] at h
      cases h
      unfold handleReceiveSFrame at hrs
      split at hrs
      · cases hrs
      · cases hrs
        rename_i q1 hq1
        have hle := checkSequenceAcknowledge_length_le _ _ _ _ hq1
        constructor
        · simp
          omega
        · intro hk
          simp_all
  | recvU u =>
    simp only [handlerStep] at h
    unfold handleReceiveUFrame at h
    split_ifs at h <;> cases h <;> exact ⟨hlen, hflag⟩

/-- A full iteration preserves the sliding-window invariant (the
trailing S-frame check does not touch the queue or the flag). -/
theorem receiveTaskStep_window_invariant (k w : Nat) (server : Bool)
    (st : SessionState) (op : Op) (st1 : SessionState) (eff : StepEffects)
    (h : receiveTaskStep k w server st op = some (st1, eff))
    (hlen : st.unackSeqNum.length ≤ k)
    (hflag : st.unackSeqNum.length = k → st.outBufferFull = true) :
    st1.unackSeqNum.length ≤ k
    ∧ (st1.unackSeqNum.length = k → st1.outBufferFull = true) := by
  cases hmid : handlerStep k server st op with
  | none => simp [receiveTaskStep, hmid] at h
  | some r =>
    obtain ⟨stMid, eff0, stop0⟩ := r
    have hr := handlerStep_window_invariant k server st op
      (stMid, eff0, stop0) hmid hlen hflag
    cases stop0 with
    | true => simp [receiveTaskStep, hmid] at h
    | false =>
      by_cases hw : stMid.unackRcvFrames > w
      · simp [receiveTaskStep, hmid, hw] at h
        obtain ⟨hst, _⟩ := h
        rw [← hst]
        exact hr
      · simp [receiveTaskStep, hmid, hw] at h
        obtain ⟨hst, _⟩ := h
        rw [← hst]
        exact hr

/-- C7: from the initial session state, after any sequence of send and
receive operations the unacknowledged-sent queue never holds more than k
entries, and whenever it holds exactly k entries the out_buffer_full
back-pressure flag is set. -/
theorem c7_sliding_window_invariant (k w : Nat) (server : Bool)
    (ops : List Op) (st : SessionState) (hk : 1 ≤ k)
    (h : runOps k w server initSessionState ops = some st) :
    st.unackSeqNum.length ≤ k
    ∧ (st.unackSeqNum.length = k → st.outBufferFull = true) := by
  suffices hgen : ∀ (ops : List Op) (st0 st : SessionState),
      st0.unackSeqNum.length ≤ k →
      (st0.unackSeqNum.length = k → st0.outBufferFull = true) →
      runOps k w server st0 ops = some st →
      st.unackSeqNum.length ≤ k
      ∧ (st.unackSeqNum.length = k → st.outBufferFull = true) by
    refine hgen ops initSessionState st ?_ ?_ h
    · simp [initSessionState]
    · intro h0
      simp [initSessionState] at h0
      omega
  intro ops
  induction ops with
  | nil =>
    intro st0 st hlen hflag hrun
    unfold runOps at hrun
    cases hrun
    exact ⟨hlen, hflag⟩
  | cons op rest ih =>
    intro st0 st hlen hflag hrun
    unfold runOps at hrun
    cases hstep : receiveTaskStep k w server st0 op with
    | none => rw [hstep] at hrun; cases hrun
    | some r =>
      obtain ⟨st1, eff⟩ := r
      rw [hstep] at hrun
      have h1 := receiveTaskStep_window_invariant k w server st0 op st1 eff
        hstep hlen hflag
      exact ih st1 st h1.1 h1.2 hrun

/-- C7 witness: one accepted send with k = 1 fills the queue and raises
the flag. -/
theorem c7_sliding_window_invariant_witness :
    (SessionState.mk 1 0 [1] 0 0 true).unackSeqNum.length ≤ 1
    ∧ ((SessionState.mk 1 0 [1] 0 0 true).unackSeqNum.length = 1 →
        (SessionState.mk 1 0 [1] 0 0 true).outBufferFull = true) :=
  c7_sliding_window_invariant 1 8 false [.sendAsdu sampleAsdu]
    ⟨1, 0, [1], 0, 0, true⟩ (by decide) (by decide)

/-- A queue of 15-bit sequence values in consecutive mod-32768 order
starting at s, as produced by successive accepted sends. -/
def consecutiveQueue (s len : Nat) : List Nat :=
  (List.range len).map (fun j => (s + j) % 32768)

theorem consecutiveQueue_length (s len : Nat) :
    (consecutiveQueue s len).length = len := by
  simp [consecutiveQueue]

theorem consecutiveQueue_getElem (s len i : Nat) (h : i < len) :
    (consecutiveQueue s len).get ⟨i, by simp [consecutiveQueue_length, h]⟩ =
      (s + i) % 32768 := by
  simp [consecutiveQueue]

theorem consecutiveQueue_head (s len : Nat) (hs : s < 32768) (h0 : 0 < len) :
    (consecutiveQueue s len).head? = some s := by
  cases len with
  | zero => omega
  | succ m =>
    rw [consecutiveQueue, List.range_succ_eq_map]
    simp [Nat.mod_eq_of_lt hs]

theorem consecutiveQueue_getLast (s len : Nat) (h0 : 0 < len) :
    (consecutiveQueue s len).getLast? = some ((s + (len - 1)) % 32768) := by
  have hlen : (consecutiveQueue s len).length = len := consecutiveQueue_length s len
  rw [List.getLast?_eq_getElem?, hlen,
    List.getElem?_eq_getElem (by simp [consecutiveQueue_length]; omega)]
  congr 1
  have := consecutiveQueue_getElem s len (len - 1) (by omega)
  simpa using this

theorem position_eq_none (p : Nat → Bool) (l : List Nat)
    (h : ∀ x ∈ l, p x = false) : position p l = none := by
  induction l with
  | nil => rfl
  | cons a as ih =>
    simp only [position, h a (List.mem_cons_self a as), if_false]
    rw [ih (fun x hx => h x (List.mem_cons_of_mem a hx))]
    rfl

theorem position_eq_some (t : Nat) (l : List Nat) (j : Nat)
    (hj : j < l.length) (ht : l.get ⟨j, hj⟩ = t)
    (hne : ∀ i (hi : i < l.length), i < j → l.get ⟨i, hi⟩ ≠ t) :
    position (fun x => x == t) l = some j := by
  induction l generalizing j with
  | nil => simp at hj
  | cons a as ih =>
    cases j with
    | zero =>
      simp at ht
      simp [position, ht]
    | succ j1 =>
      have ha : (a == t) = false := by
        have := hne 0 (by simp) (by omega)
        simpa using this
      simp only [position, ha, if_false]
      have hj1 : j1 < as.length := by simpa using hj
      rw [ih j1 hj1 (by simpa using ht) ?_]
      · rfl
      · intro i hi hij
        have := hne (i + 1) (by simpa using hi) (by omega)
        simpa using this

theorem checkSequenceAcknowledge_eq_of_bounds (q : List Nat) (o nw r c : Nat)
    (h1 : q.head? = some o) (h2 : q.getLast? = some nw) :
    checkSequenceAcknowledge q r c =
      (if oldestValidSeqNum o = r then some q
       else if isValidWindow o nw r then
         match position (fun seq => seq == r) q with
         | some i => some (q.drop (i + 1))
         | none => none
       else none) := by
  unfold checkSequenceAcknowledge
  rw [h2, h1]

/-- C3: check_sequence_acknowledge on a queue of 15-bit entries in
consecutive mod-32768 order (at most 32767 of them, the bound the spec
places on k): an empty queue accepts exactly when rsn equals
sent_counter and errors otherwise; rsn equal to (oldest - 1) mod 32768
accepts with the queue unchanged; an rsn equal to the entry at index j
accepts and drops that entry and all earlier ones; any other rsn is
rejected (the Rust error return leaves the deque untouched, which the
functional embedding expresses by returning no new queue). -/
theorem c3_check_sequence_acknowledge_spec (s len rsn sent : Nat)
    (hs : s < 32768) (h0 : 0 < len) (hlen : len ≤ 32767) :
    (checkSequenceAcknowledge [] rsn sent =
      if rsn = sent then some [] else none)
    ∧ (rsn = oldestValidSeqNum s →
        checkSequenceAcknowledge (consecutiveQueue s len) rsn sent =
          some (consecutiveQueue s len))
    ∧ (∀ j, j < len → rsn = (s + j) % 32768 →
        checkSequenceAcknowledge (consecutiveQueue s len) rsn sent =
          some ((consecutiveQueue s len).drop (j + 1)))
    ∧ (rsn ≠ oldestValidSeqNum s → rsn ∉ consecutiveQueue s len →
        checkSequenceAcknowledge (consecutiveQueue s len) rsn sent = none) := by
  have hhead := consecutiveQueue_head s len hs h0
  have hlast := consecutiveQueue_getLast s len h0
  have hrw := checkSequenceAcknowledge_eq_of_bounds (consecutiveQueue s len)
    s ((s + (len - 1)) % 32768) rsn sent hhead hlast
  refine ⟨rfl, ?_, ?_, ?_⟩
  · intro hv
    rw [hrw, if_pos hv.symm]
  · intro j hj hr
    have hnv : oldestValidSeqNum s ≠ rsn := by
      subst hr
      unfold oldestValidSeqNum
      split_ifs with hz <;> omega
    have hvalid : isValidWindow s ((s + (len - 1)) % 32768) rsn = true := by
      subst hr
      unfold isValidWindow
      split_ifs with hc <;>
        simp only [Bool.and_eq_true, Bool.or_eq_true, decide_eq_true_eq,
          ge_iff_le] <;> omega
    have hpos : position (fun seq => seq == rsn) (consecutiveQueue s len) =
        some j := by
      apply position_eq_some rsn (consecutiveQueue s len) j
        (by rw [consecutiveQueue_length]; exact hj)
      · rw [consecutiveQueue_getElem s len j hj, hr]
      · intro i hi hij
        rw [consecutiveQueue_getElem s len i
          (by rw [consecutiveQueue_length] at hi; exact hi), hr]
        have hi2 : i < len := by rw [consecutiveQueue_length] at hi; exact hi
        omega
    rw [hrw, if_neg hnv, if_pos hvalid, hpos]
  · intro hnv hmem
    rw [hrw, if_neg (fun he => hnv he.symm)]
    by_cases hv : isValidWindow s ((s + (len - 1)) % 32768) rsn = true
    · rw [if_pos hv]
      have hpos : position (fun seq => seq == rsn) (consecutiveQueue s len) =
          none := by
        apply position_eq_none
        intro x hx
        simp only [beq_eq_false_iff_ne, ne_eq]
        intro he
        exact hmem (he ▸ hx)
      rw [hpos]
    · rw [if_neg hv]

/-- C3 witness: the queue [100, 101, 102] with rsn 101 and sent_counter
103 accepts and drops the first two entries, matching the test vector of
the repository. -/
theorem c3_check_sequence_acknowledge_spec_witness :
    checkSequenceAcknowledge (consecutiveQueue 100 3) 101 103 =
      some ((consecutiveQueue 100 3).drop 2) :=
  (c3_check_sequence_acknowledge_spec 100 3 101 103 (by decide) (by decide)
    (by decide)).2.2.1 1 (by decide) (by decide)
